import Mathlib

/-!
# Verification of the quote-request intake flow

A shallow embedding of the quote-request application:

* `SERVICE_CATEGORIES`, `toggleService`, `isSelected`, `serviceTitleById` and
  `handleSubmit` embed `src/App.tsx` (the browser-direct submission path);
* `validateQuoteRequestData` and `sendQuoteRequestEmails` embed the email
  service module (`validateQuoteRequestData` / `sendQuoteRequestEmails`);
* `serverHandler` embeds the server-mediated submission handler (the Vercel
  function that inserts into `quote_requests` / `quote_request_services` and
  sends the two notification emails).

Network interactions (database inserts, email sends) are made explicit: the
outcome of each external call is an input (`SubmitEnv` / `ServerEnv`) and the
calls actually issued are returned as a trace of `Effect`s, so "no network
call is made" is a statement about that trace.
-/

namespace QuoteIntake

/-- A catalog service: `{ id, title }` in `SERVICE_CATEGORIES`. -/
structure Service where
  id : String
  title : String
deriving DecidableEq

/-- A catalog category: `{ id, title, description, services }`. -/
structure ServiceCategory where
  id : String
  title : String
  description : String
  services : List Service
deriving DecidableEq

/-- The static catalog `SERVICE_CATEGORIES` from `App.tsx`, transcribed verbatim. -/
def SERVICE_CATEGORIES : List ServiceCategory := [
  { id := "ideation", title := "Product Ideation & Research",
    description := "Market research, feasibility, validation and product concepting.",
    services := [
      ⟨"market-research", "Market Research & Consumer Insights"⟩,
      ⟨"competitive-benchmark", "Competitive Benchmarking"⟩,
      ⟨"feasibility", "Feasibility Studies"⟩,
      ⟨"concept-dev", "Product Concept Development"⟩,
      ⟨"validation", "Validation & Pilot Testing"⟩] },
  { id := "design", title := "Design & Creative Services",
    description := "Product design, visuals, photography, prototypes.",
    services := [
      ⟨"industrial-design", "Industrial / Product Design"⟩,
      ⟨"graphic-design", "Graphic & Logo Design"⟩,
      ⟨"ux-ui", "UX / UI Design"⟩,
      ⟨"photo-video", "Product Photography & Videography"⟩,
      ⟨"prototyping", "Prototyping & 3D Rendering"⟩] },
  { id := "branding", title := "Branding & Identity",
    description := "Strategy, messaging, brand guides and localization.",
    services := [
      ⟨"brand-strategy", "Brand Strategy & Positioning"⟩,
      ⟨"logo-identity", "Logo & Identity"⟩,
      ⟨"messaging", "Messaging & Copywriting"⟩,
      ⟨"guidelines", "Brand Guidelines"⟩,
      ⟨"localization", "Multilingual Branding"⟩] },
  { id := "packaging", title := "Packaging & Labeling",
    description := "Design, sourcing and compliance-ready labels.",
    services := [
      ⟨"pack-design", "Packaging Design (structural + aesthetic)"⟩,
      ⟨"eco-pack", "Sustainable / Eco Packaging"⟩,
      ⟨"labeling", "Compliance Labeling"⟩,
      ⟨"smart-pack", "QR / Smart Packaging"⟩,
      ⟨"print-prod", "Print & Production Management"⟩] },
  { id := "digital", title := "Digital Presence & Web",
    description := "Websites, ecommerce, SEO and catalogs.",
    services := [
      ⟨"website", "Corporate Website Development"⟩,
      ⟨"ecommerce", "E-commerce Store Setup"⟩,
      ⟨"seo", "SEO & Listing Optimization"⟩,
      ⟨"landing", "Product Landing Pages"⟩,
      ⟨"catalog", "Digital Catalogs & Brochures"⟩] },
  { id := "marketing", title := "Marketing & Go-to-Market",
    description := "Social, PR, ads, trade shows and partnerships.",
    services := [
      ⟨"social", "Social Media Strategy & Content"⟩,
      ⟨"influencer", "Influencer & Affiliate Partnerships"⟩,
      ⟨"pr", "PR & Media Outreach"⟩,
      ⟨"ads", "Paid Advertising Campaigns"⟩,
      ⟨"tradeshows", "Trade Show Representation"⟩] },
  { id := "compliance", title := "Compliance & Certification",
    description := "Certifications, IP and export doc support.",
    services := [
      ⟨"certs", "Product Certification Support"⟩,
      ⟨"ip", "Intellectual Property Assistance"⟩,
      ⟨"export-docs", "Export Documentation Support"⟩,
      ⟨"safety", "Safety & Regulatory Compliance"⟩] },
  { id := "manufacturing", title := "Manufacturing & Supply Chain",
    description := "Suppliers, contract manufacturing and QA.",
    services := [
      ⟨"sourcing", "Supplier & Vendor Sourcing"⟩,
      ⟨"small-batch", "Small-Batch Production Setup"⟩,
      ⟨"contract-man", "Contract Manufacturing"⟩,
      ⟨"qa", "Quality Assurance & Testing"⟩,
      ⟨"inventory", "Inventory & Warehouse Consulting"⟩] },
  { id := "finance", title := "Financing & Insurance",
    description := "Trade finance, grants and insurance advisory.",
    services := [
      ⟨"trade-finance", "Trade Finance Access"⟩,
      ⟨"grants", "Grants & Funding Advisory"⟩,
      ⟨"insurance", "Export & Product Insurance"⟩,
      ⟨"liability", "Product Liability Insurance"⟩] },
  { id := "growth", title := "Post-Launch Growth",
    description := "Distribution, iteration, scaling and licensing.",
    services := [
      ⟨"distributor", "Distributor & Retailer Matchmaking"⟩,
      ⟨"feedback", "Customer Feedback Loops"⟩,
      ⟨"scaling", "Iteration & SKU Scaling"⟩,
      ⟨"licensing", "Licensing & Franchising"⟩] }]

/-- `toggleService` from `App.tsx`: if the id is present, remove it
(`prev.filter(s => s !== serviceId)`), else append it (`[...prev, serviceId]`). -/
def toggleService (prev : List String) (serviceId : String) : List String :=
  if prev.contains serviceId then prev.filter (fun s => s ≠ serviceId)
  else prev ++ [serviceId]

/-- `isSelected` from `App.tsx`: `selected.includes(serviceId)`. -/
def isSelected (selected : List String) (serviceId : String) : Bool :=
  selected.contains serviceId

/-- Apply a sequence of `toggleService` calls starting from the empty selection. -/
def applyToggles (seq : List String) : List String :=
  seq.foldl toggleService []

/-- First service of the catalog matching an id, scanning categories in order and,
within a category, services in order — the search order used by both
`serviceTitleById` and the inline lookup in `handleSubmit`. -/
def findService (sid : String) : Option Service :=
  SERVICE_CATEGORIES.findSome? (fun c => c.services.find? (fun s => s.id = sid))

/-- `serviceTitleById` from `App.tsx`: nested scan of the catalog, returning the
first matching service's title, falling back to the raw id. -/
def serviceTitleById (sid : String) : String :=
  match findService sid with
  | some s => s.title
  | none => sid

/-- The inline lookup used when building the insert rows and the email payload in
`handleSubmit`: `serviceDetails?.title || serviceId`. JavaScript `||` also falls
back on an empty-string title, hence the extra emptiness test. -/
def submitServiceTitle (sid : String) : String :=
  match findService sid with
  | some s => if s.title = "" then sid else s.title
  | none => sid

/-! ## Email service (`validateQuoteRequestData`, `sendQuoteRequestEmails`) -/

/-- The JavaScript regex class `\s` (the whitespace characters recognised by
`RegExp` and by `String.prototype.trim`), by code point. -/
def isJsSpace (c : Char) : Bool :=
  c.val = 0x9 || c.val = 0xa || c.val = 0xb || c.val = 0xc || c.val = 0xd ||
  c.val = 0x20 || c.val = 0xa0 || c.val = 0x1680 ||
  (0x2000 ≤ c.val && c.val ≤ 0x200a) ||
  c.val = 0x2028 || c.val = 0x2029 || c.val = 0x202f || c.val = 0x205f ||
  c.val = 0x3000 || c.val = 0xfeff

/-- `s.trim().length === 0` in JavaScript: every character of `s` is whitespace
(vacuously true for the empty string). -/
def allWhitespace (s : String) : Bool :=
  s.data.all isJsSpace

/-- The email test `/^[^\s@]+@[^\s@]+\.[^\s@]+$/` of `validateQuoteRequestData`.
With backtracking, a string matches exactly when it contains no whitespace and
exactly one `@`, with a non-empty part before the `@`, and the part after the
`@` contains a `.` that is neither its first nor its last character. -/
def emailRegexMatch (s : String) : Bool :=
  match s.data.splitOn '@' with
  | [lp, dom] =>
      !lp.isEmpty && lp.all (fun c => !isJsSpace c) &&
      dom.all (fun c => !isJsSpace c) &&
      ((dom.drop 1).dropLast.contains '.')
  | _ => false

/-- The payload given to the email service (`QuoteRequestData` in
`emailService.ts`): the contact fields, the resolved service titles and an ISO
timestamp. Optional fields are carried as strings, `""` denoting absence, as in
the submitting code. -/
structure QuoteRequestData where
  name : String
  company : String
  email : String
  phone : String
  budget : String
  timeline : String
  message : String
  selectedServices : List String
  timestamp : String
deriving DecidableEq

/-- Result of `validateQuoteRequestData`: `{ isValid, errors }`. -/
structure ValidationResult where
  isValid : Bool
  errors : List String
deriving DecidableEq

/-- `validateQuoteRequestData` from `emailService.ts`: pushes an error for a
blank name, a blank or regex-invalid email, and an empty service list, in that
order; `isValid` is `errors.length === 0`, i.e. the error list is empty. -/
def validateQuoteRequestData (d : QuoteRequestData) : ValidationResult :=
  let nameErrs := if allWhitespace d.name then ["Name is required"] else []
  let emailErrs :=
    if allWhitespace d.email then ["Email is required"]
    else if emailRegexMatch d.email then [] else ["Valid email address is required"]
  let svcErrs :=
    if d.selectedServices.isEmpty then ["At least one service must be selected"] else []
  let errors := nameErrs ++ emailErrs ++ svcErrs
  ⟨errors.isEmpty, errors⟩

/-- `EmailResult` from `emailService.ts` (the optional `emailId` is never set
by `sendQuoteRequestEmails` and is omitted). -/
structure EmailResult where
  success : Bool
  message : String
deriving DecidableEq

/-- The combined outcome computed by `sendQuoteRequestEmails` from the two send
results: both succeeded / only the admin send succeeded / the admin send failed. -/
def emailOutcome (adminSent clientSent : Bool) : EmailResult :=
  if adminSent && clientSent then
    ⟨true, "Quote request emails sent successfully"⟩
  else if adminSent then
    ⟨true, "Admin notification sent, but client confirmation failed"⟩
  else
    ⟨false, "Failed to send quote request emails"⟩

/-! ## Browser-direct submission path (`handleSubmit` in `App.tsx`) -/

/-- The row inserted into `quote_requests` by `handleSubmit`. `form.phone || null`
and friends become `Option String` via `optOf`. -/
structure QuoteRow where
  name : String
  email : String
  phone : Option String
  company : Option String
  message : Option String
  status : String
  request_number : String
  created_at : String
deriving DecidableEq

/-- A row inserted into `quote_request_services` by `handleSubmit`. -/
structure ServiceRow where
  quote_request_id : String
  service_name : String
  custom_description : Option String
  estimated_price : Option String
  final_price : Option String
deriving DecidableEq

/-- JavaScript `s || null` on a string field: `""` is falsy. -/
def optOf (s : String) : Option String :=
  if s = "" then none else some s

/-- Network calls issued by the browser-direct submission path. -/
inductive Effect where
  | insertQuote (row : QuoteRow)
  | insertServices (rows : List ServiceRow)
  | sendAdminEmail
  | sendClientEmail
deriving DecidableEq

/-- `sendQuoteRequestEmails` from `emailService.ts`: re-validates the payload
(returning a validation failure and attempting neither send when invalid), and
otherwise attempts the admin send and then the client send — each inner send
catches its own errors, so both are always attempted — and combines the two
boolean outcomes. The outcomes of the two external sends are the `adminSent`
and `clientSent` inputs; the second component is the trace of attempted sends. -/
def sendQuoteRequestEmails (d : QuoteRequestData) (adminSent clientSent : Bool) :
    EmailResult × List Effect :=
  let v := validateQuoteRequestData d
  if v.isValid then
    (emailOutcome adminSent clientSent, [Effect.sendAdminEmail, Effect.sendClientEmail])
  else
    (⟨false, "Validation failed: " ++ String.intercalate ", " v.errors⟩, [])

/-- The form state of `App.tsx` (`useState` record with seven string fields). -/
structure FormState where
  name : String
  company : String
  email : String
  phone : String
  budget : String
  timeline : String
  message : String
deriving DecidableEq

/-- The empty form, as reset on successful submission. -/
def emptyForm : FormState :=
  ⟨"", "", "", "", "", "", ""⟩

/-- The pieces of `App.tsx` state that `handleSubmit` reads or writes. -/
structure AppState where
  selected : List String
  form : FormState
  error : Option String
  success : Option String
  submitting : Bool
deriving DecidableEq

/-- Outcome of one Supabase insert as observed by `handleSubmit`: the resolved
`{ error }` field is `ok` or `dbError`, and a rejected promise (network fault or
other exception) is `threw` — with `some m` for an `Error` carrying message `m`
and `none` for a non-`Error` throwable. -/
inductive StepResult where
  | ok
  | dbError (msg : String)
  | threw (msg : Option String)
deriving DecidableEq

/-- The message displayed for a caught exception:
`err instanceof Error ? err.message : "We couldn't submit your request. Try again later."`. -/
def thrownMsg : Option String → String
  | some m => m
  | none => "We couldn't submit your request. Try again later."

/-- The environment of one submission attempt: the clock reads and the outcomes
of the external calls `handleSubmit` makes. -/
structure SubmitEnv where
  nowMs : Nat
  nowIso : String
  quoteId : String
  quoteResult : StepResult
  servicesResult : StepResult
  adminSent : Bool
  clientSent : Bool
deriving DecidableEq

/-- The validation failure message of `handleSubmit`. -/
def validationMsg : String :=
  "Please provide your name, email and select at least one service."

/-- The success message of `handleSubmit`. -/
def successMsg : String :=
  "Request sent successfully. Our team will contact you shortly."

/-- The `quote_requests` row built by `handleSubmit`. -/
def submitQuoteRow (form : FormState) (env : SubmitEnv) : QuoteRow :=
  { name := form.name
    email := form.email
    phone := optOf form.phone
    company := optOf form.company
    message := optOf form.message
    status := "pending"
    request_number := "REQ-" ++ toString env.nowMs
    created_at := env.nowIso }

/-- One `quote_request_services` row built by `handleSubmit` for a selected id. -/
def mkServiceRow (quoteId sid : String) : ServiceRow :=
  { quote_request_id := quoteId
    service_name := submitServiceTitle sid
    custom_description := none
    estimated_price := none
    final_price := none }

/-- The `emailData` payload `handleSubmit` passes to `sendQuoteRequestEmails`. -/
def mkEmailData (form : FormState) (selected : List String) (env : SubmitEnv) :
    QuoteRequestData :=
  { name := form.name
    company := form.company
    email := form.email
    phone := form.phone
    budget := form.budget
    timeline := form.timeline
    message := form.message
    selectedServices := selected.map submitServiceTitle
    timestamp := env.nowIso }

/-- The state after a fully successful submission: success message set, error
cleared, selection and form reset, `submitting` back to `false`. -/
def submitSuccessState : AppState :=
  { selected := []
    form := emptyForm
    error := none
    success := some successMsg
    submitting := false }

/-- `handleSubmit` from `App.tsx`, as a function of the pre-submission state and
the environment, returning the post-submission state and the trace of network
calls. Control flow follows the source: clear the error; validation guard (no
calls, validation message); insert the `quote_requests` row; on success insert
the `quote_request_services` rows (guarded by `selected.length > 0`, which the
validation already guarantees); call `sendQuoteRequestEmails`, whose failure is
only logged; set the success message and reset selection and form. Any `throw`
lands in the `catch`, which sets the error message and leaves the rest of the
state unchanged; `finally` resets `submitting`. -/
def handleSubmit (st : AppState) (env : SubmitEnv) : AppState × List Effect :=
  let st0 : AppState := { st with error := none }
  if st.form.name = "" ∨ st.form.email = "" ∨ st.selected = [] then
    ({ st0 with error := some validationMsg }, [])
  else
    let qrow := submitQuoteRow st.form env
    match env.quoteResult with
    | .dbError _ =>
        ({ st0 with error := some "Failed to save quote request", submitting := false },
         [Effect.insertQuote qrow])
    | .threw t =>
        ({ st0 with error := some (thrownMsg t), submitting := false },
         [Effect.insertQuote qrow])
    | .ok =>
        if st.selected = [] then
          -- dead under the validation guard, kept for fidelity to the source
          (submitSuccessState,
           [Effect.insertQuote qrow] ++
             (sendQuoteRequestEmails (mkEmailData st.form st.selected env)
               env.adminSent env.clientSent).2)
        else
          let srows := st.selected.map (mkServiceRow env.quoteId)
          match env.servicesResult with
          | .dbError _ =>
              ({ st0 with
                  error := some "Failed to save selected services"
                  submitting := false },
               [Effect.insertQuote qrow, Effect.insertServices srows])
          | .threw t =>
              ({ st0 with error := some (thrownMsg t), submitting := false },
               [Effect.insertQuote qrow, Effect.insertServices srows])
          | .ok =>
              (submitSuccessState,
               [Effect.insertQuote qrow, Effect.insertServices srows] ++
                 (sendQuoteRequestEmails (mkEmailData st.form st.selected env)
                   env.adminSent env.clientSent).2)

/-- The `quote_requests` rows occurring in a trace. -/
def quoteInsertsOf (effects : List Effect) : List QuoteRow :=
  effects.filterMap fun e =>
    match e with
    | .insertQuote r => some r
    | _ => none

/-- The `quote_request_services` batches occurring in a trace. -/
def serviceBatchesOf (effects : List Effect) : List (List ServiceRow) :=
  effects.filterMap fun e =>
    match e with
    | .insertServices rs => some rs
    | _ => none

/-! ## Server-mediated submission path (the Vercel handler) -/

/-- The `contact` object of the server request body. Optional fields are
`Option String`; `budget` and `timeline` are required by the handler's type. -/
structure ServerContact where
  name : String
  company : Option String
  email : String
  phone : Option String
  budget : String
  timeline : String
  message : Option String
deriving DecidableEq

/-- One entry of the `services` array of the server request body. -/
structure ServerService where
  id : String
  name : String
  category : String
  description : Option String
deriving DecidableEq

/-- The server request body (`QuoteRequestData` in the handler). -/
structure ServerReq where
  contact : ServerContact
  services : List ServerService
deriving DecidableEq

/-- The `quote_requests` row inserted by the server handler (the
`budget_range` / `timeline` schema variant; `request_number` is generated by the
database, not by this insert). -/
structure ServerQuoteRow where
  name : String
  company : Option String
  email : String
  phone : Option String
  budget_range : String
  timeline : String
  message : Option String
  status : String
deriving DecidableEq

/-- A `quote_request_services` row inserted by the server handler. -/
structure ServerServiceRow where
  quote_request_id : String
  service_name : String
  custom_description : Option String
deriving DecidableEq

/-- Network calls issued by the server handler. -/
inductive ServerEffect where
  | insertQuote (row : ServerQuoteRow)
  | insertServices (rows : List ServerServiceRow)
  | emailTo (addr : String)
deriving DecidableEq

/-- Environment of one server-handler invocation: outcomes of the external
calls, the database-generated id and request number, and the configured admin
address. `quoteResult` / `servicesResult` are `some msg` when the corresponding
insert reports a database error. -/
structure ServerEnv where
  quoteResult : Option String
  quoteId : String
  requestNumber : String
  servicesResult : Option String
  adminEmailOk : Bool
  clientEmailOk : Bool
  adminEmail : String
deriving DecidableEq

/-- A JSON response of the server handler: `{ success, requestNumber, message }`
on success, `{ error }` on failure. -/
inductive ServerBody where
  | ok (requestNumber : String)
  | err (msg : String)
deriving DecidableEq

/-- Status code plus body of a server response. -/
structure ServerResponse where
  status : Nat
  body : ServerBody
deriving DecidableEq

/-- The POST branch of the server handler, returning the response, the trace of
network calls and the diagnostic log. Control flow follows the source: validate
`contact.name`, `contact.email` and `services.length` (400, no calls); insert
the `quote_requests` row (500 with the fixed message on a database error); map
the request's services to `quote_request_services` rows and insert them — an
error here is only logged and does not change the response; send the admin
email and then, only if that send did not throw, the client email, any email
exception being logged only; finally respond 200 with the generated request
number. (The OPTIONS/405 branches and the top-level 500 catch are not modelled:
no claim mentions them.) -/
def serverHandler (req : ServerReq) (env : ServerEnv) :
    ServerResponse × List ServerEffect × List String :=
  if req.contact.name = "" ∨ req.contact.email = "" ∨ req.services = [] then
    (⟨400, .err "Missing required fields"⟩, [], [])
  else
    let qrow : ServerQuoteRow :=
      { name := req.contact.name
        company := req.contact.company
        email := req.contact.email
        phone := req.contact.phone
        budget_range := req.contact.budget
        timeline := req.contact.timeline
        message := req.contact.message
        status := "pending" }
    match env.quoteResult with
    | some m =>
        (⟨500, .err "Failed to save quote request"⟩,
         [ServerEffect.insertQuote qrow], ["Database error: " ++ m])
    | none =>
        let srows := req.services.map fun s =>
          ServerServiceRow.mk env.quoteId s.name s.description
        let svcLogs :=
          match env.servicesResult with
          | some m => ["Services insert error: " ++ m]
          | none => []
        let emailCalls :=
          if env.adminEmailOk then
            [ServerEffect.emailTo env.adminEmail, ServerEffect.emailTo req.contact.email]
          else
            [ServerEffect.emailTo env.adminEmail]
        let emailLogs :=
          if env.adminEmailOk then
            if env.clientEmailOk then [] else ["Email sending error"]
          else ["Email sending error"]
        (⟨200, .ok env.requestNumber⟩,
         [ServerEffect.insertQuote qrow, ServerEffect.insertServices srows] ++ emailCalls,
         svcLogs ++ emailLogs)

/-- The `quote_request_services` batches occurring in a server trace. -/
def serverBatchesOf (effects : List ServerEffect) : List (List ServerServiceRow) :=
  effects.filterMap fun e =>
    match e with
    | .insertServices rs => some rs
    | _ => none

/-! ## Concrete inputs used by counterexamples and witnesses -/

/-- A well-formed server request used to exercise the services-insert failure. -/
def c8Req : ServerReq :=
  ⟨⟨"Jane Doe", none, "jane@x.com", none, "5k-20k", "1-3", none⟩,
   [⟨"seo", "SEO Optimization", "Digital Presence & Web", none⟩]⟩

/-- A server environment in which the `quote_requests` insert succeeds but the
`quote_request_services` insert reports a database error. -/
def c8Env : ServerEnv :=
  ⟨none, "q-1", "QR2024010001", some "permission denied", true, true,
   "admin@example.com"⟩

/-- A completed form used by witnesses. -/
def wForm : FormState :=
  ⟨"Jane Doe", "", "jane@x.com", "", "5k-20k", "1-3", ""⟩

/-- A pre-submission state with one selected service and a completed form. -/
def wState : AppState :=
  ⟨["seo"], wForm, none, none, false⟩

/-- A pre-submission state whose form has an empty name. -/
def wStateNoName : AppState :=
  ⟨["seo"], ⟨"", "", "jane@x.com", "", "", "", ""⟩, none, none, false⟩

/-- A pre-submission state whose form has a non-empty but regex-invalid email. -/
def wStateBadEmail : AppState :=
  ⟨["seo"], ⟨"Jane Doe", "", "not-an-email", "", "", "", ""⟩, none, none, false⟩

/-- A submission environment with chosen step outcomes and email outcomes. -/
def wEnv (q s : StepResult) (a c : Bool) : SubmitEnv :=
  ⟨1700000000000, "2024-01-01T00:00:00.000Z", "q-1", q, s, a, c⟩

/-- A well-formed server request used by witnesses. -/
def wReq : ServerReq :=
  ⟨⟨"Jane Doe", none, "jane@x.com", none, "5k-20k", "1-3", none⟩,
   [⟨"seo", "SEO Optimization", "Digital Presence & Web", none⟩]⟩

/-- A server request that fails the handler validation (empty name). -/
def wReqInvalid : ServerReq :=
  ⟨⟨"", none, "jane@x.com", none, "", "", none⟩, []⟩

/-- A server environment with chosen insert and email outcomes. -/
def wSEnv (q s : Option String) : ServerEnv :=
  ⟨q, "q-1", "QR2024010001", s, true, true, "admin@example.com"⟩

/-- An email payload that passes re-validation. -/
def wEmailData : QuoteRequestData :=
  ⟨"Jane Doe", "", "jane@x.com", "", "5k-20k", "1-3", "",
   ["SEO & Listing Optimization"], "2024-01-01T00:00:00.000Z"⟩

/-- An email payload whose email is non-empty but regex-invalid. -/
def wBadEmailData : QuoteRequestData :=
  ⟨"Jane Doe", "", "not-an-email", "", "5k-20k", "1-3", "",
   ["SEO & Listing Optimization"], "2024-01-01T00:00:00.000Z"⟩

/-! ## Selection-state lemmas -/

theorem toggleService_nodup {l : List String} (hl : l.Nodup) (a : String) :
    (toggleService l a).Nodup := by
  unfold toggleService
  by_cases hc : l.contains a = true
  · rw [if_pos hc]
    exact hl.filter _
  · rw [if_neg hc]
    have ha : a ∉ l := by simpa using hc
    simp [List.nodup_append, hl, ha]

theorem mem_toggleService_self (l : List String) (a : String) :
    a ∈ toggleService l a ↔ a ∉ l := by
  unfold toggleService
  by_cases hc : l.contains a = true
  · rw [if_pos hc]
    have ha : a ∈ l := by simpa using hc
    simp [List.mem_filter, ha]
  · rw [if_neg hc]
    have ha : a ∉ l := by simpa using hc
    simp [ha]

theorem mem_toggleService_ne (l : List String) {a b : String} (h : b ≠ a) :
    b ∈ toggleService l a ↔ b ∈ l := by
  unfold toggleService
  by_cases hc : l.contains a = true
  · rw [if_pos hc]
    simp [List.mem_filter, h]
  · rw [if_neg hc]
    simp [h]

theorem foldl_toggle_spec (seq : List String) : ∀ l : List String, l.Nodup →
    (seq.foldl toggleService l).Nodup ∧
    ∀ sid, sid ∈ seq.foldl toggleService l ↔ ((sid ∈ l) ↔ ¬ Odd (seq.count sid)) := by
  induction seq with
  | nil =>
      intro l hl
      refine ⟨hl, fun sid => ?_⟩
      simp
  | cons a tl ih =>
      intro l hl
      obtain ⟨hn, hm⟩ := ih (toggleService l a) (toggleService_nodup hl a)
      refine ⟨hn, fun sid => ?_⟩
      rw [List.foldl_cons, hm sid]
      by_cases hsa : sid = a
      · subst hsa
        rw [mem_toggleService_self, List.count_cons_self, Nat.odd_iff, Nat.odd_iff]
        have hpar : (tl.count sid + 1) % 2 = 1 ↔ ¬(tl.count sid % 2 = 1) := by omega
        tauto
      · rw [mem_toggleService_ne l hsa, List.count_cons_of_ne hsa]

/-! ## Claim theorems -/

/-- C6: starting from the empty selection, after any sequence of
`toggleService` calls a service id is selected exactly when it has been toggled
an odd number of times (toggle is its own inverse), and the selection never
contains duplicate entries. -/
theorem toggle_parity_and_nodup (seq : List String) :
    (applyToggles seq).Nodup ∧
    ∀ sid, isSelected (applyToggles seq) sid = true ↔ Odd (seq.count sid) := by
  obtain ⟨hn, hm⟩ := foldl_toggle_spec seq [] List.nodup_nil
  refine ⟨hn, fun sid => ?_⟩
  have h := hm sid
  simp only [List.not_mem_nil, false_iff, not_not] at h
  simpa [isSelected, applyToggles] using h

/-- C7: `serviceTitleById` returns the catalog title for every id present in
the static catalog, and returns the id unchanged for every id absent from it. -/
theorem serviceTitleById_spec :
    (∀ c ∈ SERVICE_CATEGORIES, ∀ s ∈ c.services, serviceTitleById s.id = s.title) ∧
    ∀ sid, (∀ c ∈ SERVICE_CATEGORIES, ∀ s ∈ c.services, s.id ≠ sid) →
      serviceTitleById sid = sid := by
  constructor
  · decide
  · intro sid h
    have hf : findService sid = none := by
      rw [findService, List.findSome?_eq_none_iff]
      intro c hc
      rw [List.find?_eq_none]
      intro s hs
      simpa using h c hc s hs
    rw [serviceTitleById, hf]

/-- Witness for C7: the catalog id `"seo"` resolves to its title, and an id
absent from the catalog comes back unchanged. -/
theorem serviceTitleById_spec_witness :
    serviceTitleById "seo" = "SEO & Listing Optimization" ∧
    serviceTitleById "unknown-service" = "unknown-service" := by
  constructor
  · exact serviceTitleById_spec.1
      { id := "digital", title := "Digital Presence & Web",
        description := "Websites, ecommerce, SEO and catalogs.",
        services := [
          ⟨"website", "Corporate Website Development"⟩,
          ⟨"ecommerce", "E-commerce Store Setup"⟩,
          ⟨"seo", "SEO & Listing Optimization"⟩,
          ⟨"landing", "Product Landing Pages"⟩,
          ⟨"catalog", "Digital Catalogs & Brochures"⟩] }
      (by decide) ⟨"seo", "SEO & Listing Optimization"⟩ (by decide)
  · exact serviceTitleById_spec.2 "unknown-service" (by decide)

/-! ## Validation and email-service lemmas -/

/-- A payload with a blank name, an empty service list or a regex-invalid email
fails `validateQuoteRequestData`. -/
theorem validate_invalid (d : QuoteRequestData)
    (h : d.name = "" ∨ d.selectedServices = [] ∨ emailRegexMatch d.email = false) :
    (validateQuoteRequestData d).errors ≠ [] ∧
    (validateQuoteRequestData d).isValid = false := by
  rw [validateQuoteRequestData]
  rcases h with h | h | h
  · have hw : allWhitespace d.name = true := by rw [h]; rfl
    simp [hw]
  · simp [h]
  · by_cases hw : allWhitespace d.email = true
    · simp [hw]
    · simp only [Bool.not_eq_true] at hw
      simp [hw, h]

/-- `sendQuoteRequestEmails` never issues a database insert. -/
theorem emails_no_db_effects (d : QuoteRequestData) (a c : Bool) :
    quoteInsertsOf (sendQuoteRequestEmails d a c).2 = [] ∧
    serviceBatchesOf (sendQuoteRequestEmails d a c).2 = [] := by
  rw [sendQuoteRequestEmails]
  cases (validateQuoteRequestData d).isValid <;>
    simp [quoteInsertsOf, serviceBatchesOf]

/-- C1: a submission with an empty name, an empty email or an empty selection
performs no network call — the effect trace is empty — and sets the
user-visible validation message instead of throwing; likewise the server
handler answers 400 with its validation error and issues no calls. -/
theorem submit_validation_no_network (st : AppState) (env : SubmitEnv)
    (req : ServerReq) (senv : ServerEnv)
    (hb : st.form.name = "" ∨ st.form.email = "" ∨ st.selected = [])
    (hs : req.contact.name = "" ∨ req.contact.email = "" ∨ req.services = []) :
    (handleSubmit st env).2 = [] ∧
    (handleSubmit st env).1.error = some validationMsg ∧
    (serverHandler req senv).2.1 = [] ∧
    (serverHandler req senv).1 = ⟨400, .err "Missing required fields"⟩ := by
  have h1 : handleSubmit st env =
      ({ st with error := some validationMsg }, []) := by
    rw [handleSubmit, if_pos hb]
  have h2 : serverHandler req senv =
      (⟨400, .err "Missing required fields"⟩, [], []) := by
    rw [serverHandler, if_pos hs]
  rw [h1, h2]
  exact ⟨rfl, rfl, rfl, rfl⟩

/-- C2: when the `quote_requests` insert fails, no `quote_request_services`
rows are written and the user sees exactly the fixed string
"Failed to save quote request" — in the browser-direct path (error state) and
in the server-mediated path (500 response) alike. -/
theorem submit_step1_failure (st : AppState) (env : SubmitEnv) (m : String)
    (req : ServerReq) (senv : ServerEnv) (m2 : String)
    (h1 : st.form.name ≠ "") (h2 : st.form.email ≠ "") (h3 : st.selected ≠ [])
    (hq : env.quoteResult = .dbError m)
    (g1 : req.contact.name ≠ "") (g2 : req.contact.email ≠ "") (g3 : req.services ≠ [])
    (gq : senv.quoteResult = some m2) :
    serviceBatchesOf (handleSubmit st env).2 = [] ∧
    (handleSubmit st env).1.error = some "Failed to save quote request" ∧
    serverBatchesOf (serverHandler req senv).2.1 = [] ∧
    (serverHandler req senv).1 = ⟨500, .err "Failed to save quote request"⟩ := by
  refine ⟨?_, ?_, ?_, ?_⟩ <;>
    simp [handleSubmit, serverHandler, serviceBatchesOf, serverBatchesOf,
      h1, h2, h3, hq, g1, g2, g3, gq]

/-- C3: when both inserts succeed and both email sends fail, the submission
still reports success and clears the selection and the form; the email failure
is not surfaced (no error message), only the combined result records it. -/
theorem submit_email_failure_still_success (st : AppState) (env : SubmitEnv)
    (h1 : st.form.name ≠ "") (h2 : st.form.email ≠ "") (h3 : st.selected ≠ [])
    (hq : env.quoteResult = .ok) (hsv : env.servicesResult = .ok)
    (ha : env.adminSent = false) (hc : env.clientSent = false)
    (hv : (validateQuoteRequestData (mkEmailData st.form st.selected env)).isValid = true) :
    (handleSubmit st env).1 = submitSuccessState ∧
    Effect.sendAdminEmail ∈ (handleSubmit st env).2 ∧
    Effect.sendClientEmail ∈ (handleSubmit st env).2 ∧
    (emailOutcome env.adminSent env.clientSent).success = false := by
  refine ⟨?_, ?_, ?_, ?_⟩ <;>
    simp [handleSubmit, sendQuoteRequestEmails, emailOutcome,
      h1, h2, h3, hq, hsv, ha, hc, hv]

/-- C4: a fully successful submission inserts exactly one `quote_requests` row,
with status `"pending"`, and exactly one batch of `quote_request_services`
rows, one row per selected id in order, each row's `service_name` resolved by
the catalog lookup — which agrees with the catalog title for every catalog id
(in particular `"seo"`) and falls back to the raw id otherwise. -/
theorem submit_success_rows (st : AppState) (env : SubmitEnv)
    (h1 : st.form.name ≠ "") (h2 : st.form.email ≠ "") (h3 : st.selected ≠ [])
    (hq : env.quoteResult = .ok) (hsv : env.servicesResult = .ok) :
    quoteInsertsOf (handleSubmit st env).2 = [submitQuoteRow st.form env] ∧
    (submitQuoteRow st.form env).status = "pending" ∧
    serviceBatchesOf (handleSubmit st env).2 = [st.selected.map (mkServiceRow env.quoteId)] ∧
    (∀ sid, (mkServiceRow env.quoteId sid).service_name = submitServiceTitle sid) ∧
    (∀ c ∈ SERVICE_CATEGORIES, ∀ s ∈ c.services, submitServiceTitle s.id = s.title) ∧
    submitServiceTitle "seo" = "SEO & Listing Optimization" ∧
    ∀ sid, findService sid = none → submitServiceTitle sid = sid := by
  refine ⟨?_, rfl, ?_, fun sid => rfl, by decide, by decide,
    fun sid h => by rw [submitServiceTitle, h]⟩ <;>
  · simp [handleSubmit, quoteInsertsOf, serviceBatchesOf, h1, h2, h3, hq, hsv,
      List.filterMap_append]
    rw [sendQuoteRequestEmails]
    cases (validateQuoteRequestData (mkEmailData st.form st.selected env)).isValid <;> simp

/-- C5: with a payload passing re-validation, `sendQuoteRequestEmails` reports
`success=true` when both sends succeed; when only the admin send succeeds it
still reports `success=true` with the message noting the failed client
confirmation; when the admin send fails it reports `success=false`. -/
theorem sendEmails_combined_result (d : QuoteRequestData)
    (hv : (validateQuoteRequestData d).isValid = true) :
    (sendQuoteRequestEmails d true true).1.success = true ∧
    (sendQuoteRequestEmails d true false).1 =
      ⟨true, "Admin notification sent, but client confirmation failed"⟩ ∧
    ∀ c, (sendQuoteRequestEmails d false c).1.success = false := by
  refine ⟨?_, ?_, fun c => ?_⟩ <;>
    simp [sendQuoteRequestEmails, emailOutcome, hv]

/-- C9: on any aborting failure — a database error or an exception in step 1 or
step 2 — the selection, the form and the success message are left exactly as
they were; only the error message is set. -/
theorem submit_failure_frame (st : AppState) (env : SubmitEnv)
    (h1 : st.form.name ≠ "") (h2 : st.form.email ≠ "") (h3 : st.selected ≠ [])
    (hfail : env.quoteResult ≠ .ok ∨ env.servicesResult ≠ .ok) :
    (handleSubmit st env).1.selected = st.selected ∧
    (handleSubmit st env).1.form = st.form ∧
    (handleSubmit st env).1.success = st.success ∧
    ∃ m, (handleSubmit st env).1.error = some m := by
  cases hq : env.quoteResult with
  | ok =>
      cases hsv : env.servicesResult with
      | ok =>
          rcases hfail with h | h
          · exact absurd hq h
          · exact absurd hsv h
      | dbError m => simp [handleSubmit, h1, h2, h3, hq, hsv]
      | threw t => simp [handleSubmit, h1, h2, h3, hq, hsv]
  | dbError m => simp [handleSubmit, h1, h2, h3, hq]
  | threw t => simp [handleSubmit, h1, h2, h3, hq]

/-- C10: `sendQuoteRequestEmails` re-validates its payload: with a blank name,
an empty service list or a regex-invalid email it reports a validation failure
and attempts neither send; consequently a browser submission whose email is
non-empty but regex-invalid persists both database rows and shows success,
while no notification email is ever attempted. -/
theorem emails_revalidate_payload (d : QuoteRequestData) (a c : Bool)
    (h : d.name = "" ∨ d.selectedServices = [] ∨ emailRegexMatch d.email = false) :
    (sendQuoteRequestEmails d a c).1.success = false ∧
    (sendQuoteRequestEmails d a c).2 = [] ∧
    (sendQuoteRequestEmails d a c).1.message =
      "Validation failed: " ++ String.intercalate ", " (validateQuoteRequestData d).errors ∧
    (validateQuoteRequestData d).errors ≠ [] ∧
    ∀ (st : AppState) (env : SubmitEnv), st.form.name ≠ "" → st.form.email ≠ "" →
      emailRegexMatch st.form.email = false → st.selected ≠ [] →
      env.quoteResult = .ok → env.servicesResult = .ok →
      quoteInsertsOf (handleSubmit st env).2 = [submitQuoteRow st.form env] ∧
      serviceBatchesOf (handleSubmit st env).2 = [st.selected.map (mkServiceRow env.quoteId)] ∧
      Effect.sendAdminEmail ∉ (handleSubmit st env).2 ∧
      Effect.sendClientEmail ∉ (handleSubmit st env).2 ∧
      (handleSubmit st env).1.success = some successMsg := by
  obtain ⟨he, hvf⟩ := validate_invalid d h
  refine ⟨?_, ?_, ?_, he, ?_⟩
  · simp [sendQuoteRequestEmails, hvf]
  · simp [sendQuoteRequestEmails, hvf]
  · simp [sendQuoteRequestEmails, hvf]
  · intro st env h1 h2 hre h3 hq hsv
    have hvd : (validateQuoteRequestData (mkEmailData st.form st.selected env)).isValid
        = false :=
      (validate_invalid _ (Or.inr (Or.inr hre))).2
    refine ⟨?_, ?_, ?_, ?_, ?_⟩ <;>
      simp [handleSubmit, sendQuoteRequestEmails, quoteInsertsOf, serviceBatchesOf,
        submitSuccessState, h1, h2, h3, hq, hsv, hvd, List.filterMap_append]

/-! ## C8: the two paths disagree on a services-insert failure -/

/-- C8 counterexample: in the server-mediated path a failing
`quote_request_services` insert does NOT abort the submission — the handler
answers 200 with the request number, surfaces no
"Failed to save selected services" message, and the database error is only
logged. -/
theorem server_step2_failure_not_aborted :
    (serverHandler c8Req c8Env).1 = ⟨200, .ok "QR2024010001"⟩ ∧
    (serverHandler c8Req c8Env).1.body ≠ .err "Failed to save selected services" ∧
    (serverHandler c8Req c8Env).2.2 = ["Services insert error: permission denied"] := by
  decide

/-- C8 amended: in the browser-direct path a failing services insert aborts the
submission with exactly "Failed to save selected services" and no email is
attempted; in the server-mediated path the failure is only logged and the
handler still answers 200 with the request number. -/
theorem step2_failure_policy (st : AppState) (env : SubmitEnv) (m : String)
    (req : ServerReq) (senv : ServerEnv) (m2 : String)
    (h1 : st.form.name ≠ "") (h2 : st.form.email ≠ "") (h3 : st.selected ≠ [])
    (hq : env.quoteResult = .ok) (hsv : env.servicesResult = .dbError m)
    (g1 : req.contact.name ≠ "") (g2 : req.contact.email ≠ "") (g3 : req.services ≠ [])
    (gq : senv.quoteResult = none) (gm : senv.servicesResult = some m2) :
    (handleSubmit st env).1.error = some "Failed to save selected services" ∧
    Effect.sendAdminEmail ∉ (handleSubmit st env).2 ∧
    Effect.sendClientEmail ∉ (handleSubmit st env).2 ∧
    (handleSubmit st env).1.success = st.success ∧
    (serverHandler req senv).1 = ⟨200, .ok senv.requestNumber⟩ ∧
    ("Services insert error: " ++ m2) ∈ (serverHandler req senv).2.2 := by
  refine ⟨?_, ?_, ?_, ?_, ?_, ?_⟩ <;>
    simp [handleSubmit, serverHandler, h1, h2, h3, hq, hsv, g1, g2, g3, gq, gm]

/-! ## Witnesses -/

/-- Witness for C1: a submission with an empty name makes no network call and
sets the validation message, and the empty-name server request gets a 400. -/
theorem submit_validation_no_network_witness :
    (handleSubmit wStateNoName (wEnv .ok .ok true true)).2 = [] ∧
    (handleSubmit wStateNoName (wEnv .ok .ok true true)).1.error = some validationMsg ∧
    (serverHandler wReqInvalid (wSEnv none none)).2.1 = [] ∧
    (serverHandler wReqInvalid (wSEnv none none)).1 = ⟨400, .err "Missing required fields"⟩ :=
  submit_validation_no_network wStateNoName (wEnv .ok .ok true true)
    wReqInvalid (wSEnv none none) (Or.inl (by decide)) (Or.inl (by decide))

/-- Witness for C2: a failing `quote_requests` insert on a valid submission. -/
theorem submit_step1_failure_witness :
    serviceBatchesOf (handleSubmit wState (wEnv (.dbError "db down") .ok true true)).2 = [] ∧
    (handleSubmit wState (wEnv (.dbError "db down") .ok true true)).1.error =
      some "Failed to save quote request" ∧
    serverBatchesOf (serverHandler wReq (wSEnv (some "db down") none)).2.1 = [] ∧
    (serverHandler wReq (wSEnv (some "db down") none)).1 =
      ⟨500, .err "Failed to save quote request"⟩ :=
  submit_step1_failure wState (wEnv (.dbError "db down") .ok true true) "db down"
    wReq (wSEnv (some "db down") none) "db down"
    (by decide) (by decide) (by decide) rfl (by decide) (by decide) (by decide) rfl

/-- Witness for C3: both inserts succeed, both email sends fail, and the
submission still ends in the cleared success state. -/
theorem submit_email_failure_still_success_witness :
    (handleSubmit wState (wEnv .ok .ok false false)).1 = submitSuccessState ∧
    Effect.sendAdminEmail ∈ (handleSubmit wState (wEnv .ok .ok false false)).2 ∧
    Effect.sendClientEmail ∈ (handleSubmit wState (wEnv .ok .ok false false)).2 ∧
    (emailOutcome (wEnv .ok .ok false false).adminSent
      (wEnv .ok .ok false false).clientSent).success = false :=
  submit_email_failure_still_success wState (wEnv .ok .ok false false)
    (by decide) (by decide) (by decide) rfl rfl rfl rfl (by decide)

/-- Witness for C4: a fully successful submission with the single selected id
`"seo"`. -/
theorem submit_success_rows_witness :
    quoteInsertsOf (handleSubmit wState (wEnv .ok .ok true true)).2 =
      [submitQuoteRow wState.form (wEnv .ok .ok true true)] ∧
    (submitQuoteRow wState.form (wEnv .ok .ok true true)).status = "pending" ∧
    serviceBatchesOf (handleSubmit wState (wEnv .ok .ok true true)).2 =
      [wState.selected.map (mkServiceRow (wEnv .ok .ok true true).quoteId)] ∧
    (∀ sid, (mkServiceRow (wEnv .ok .ok true true).quoteId sid).service_name =
      submitServiceTitle sid) ∧
    (∀ c ∈ SERVICE_CATEGORIES, ∀ s ∈ c.services, submitServiceTitle s.id = s.title) ∧
    submitServiceTitle "seo" = "SEO & Listing Optimization" ∧
    ∀ sid, findService sid = none → submitServiceTitle sid = sid :=
  submit_success_rows wState (wEnv .ok .ok true true)
    (by decide) (by decide) (by decide) rfl rfl

/-- Witness for C5: a valid payload exercises all three combined outcomes. -/
theorem sendEmails_combined_result_witness :
    (sendQuoteRequestEmails wEmailData true true).1.success = true ∧
    (sendQuoteRequestEmails wEmailData true false).1 =
      ⟨true, "Admin notification sent, but client confirmation failed"⟩ ∧
    ∀ c, (sendQuoteRequestEmails wEmailData false c).1.success = false :=
  sendEmails_combined_result wEmailData (by decide)

/-- Witness for C9: a step-1 database error leaves selection, form and success
untouched and sets an error message. -/
theorem submit_failure_frame_witness :
    (handleSubmit wState (wEnv (.dbError "db down") .ok true true)).1.selected =
      wState.selected ∧
    (handleSubmit wState (wEnv (.dbError "db down") .ok true true)).1.form = wState.form ∧
    (handleSubmit wState (wEnv (.dbError "db down") .ok true true)).1.success =
      wState.success ∧
    ∃ m, (handleSubmit wState (wEnv (.dbError "db down") .ok true true)).1.error = some m :=
  submit_failure_frame wState (wEnv (.dbError "db down") .ok true true)
    (by decide) (by decide) (by decide) (Or.inl (by decide))

/-- Witness for C10: a regex-invalid email payload is rejected without any
send, and the corresponding browser submission persists rows, shows success
and attempts no email. -/
theorem emails_revalidate_payload_witness :
    (sendQuoteRequestEmails wBadEmailData true true).1.success = false ∧
    (sendQuoteRequestEmails wBadEmailData true true).2 = [] ∧
    (sendQuoteRequestEmails wBadEmailData true true).1.message =
      "Validation failed: " ++
        String.intercalate ", " (validateQuoteRequestData wBadEmailData).errors ∧
    (validateQuoteRequestData wBadEmailData).errors ≠ [] ∧
    (quoteInsertsOf (handleSubmit wStateBadEmail (wEnv .ok .ok true true)).2 =
      [submitQuoteRow wStateBadEmail.form (wEnv .ok .ok true true)] ∧
     serviceBatchesOf (handleSubmit wStateBadEmail (wEnv .ok .ok true true)).2 =
      [wStateBadEmail.selected.map (mkServiceRow (wEnv .ok .ok true true).quoteId)] ∧
     Effect.sendAdminEmail ∉ (handleSubmit wStateBadEmail (wEnv .ok .ok true true)).2 ∧
     Effect.sendClientEmail ∉ (handleSubmit wStateBadEmail (wEnv .ok .ok true true)).2 ∧
     (handleSubmit wStateBadEmail (wEnv .ok .ok true true)).1.success = some successMsg) :=
  have h := emails_revalidate_payload wBadEmailData true true
    (Or.inr (Or.inr (by decide)))
  ⟨h.1, h.2.1, h.2.2.1, h.2.2.2.1,
    h.2.2.2.2 wStateBadEmail (wEnv .ok .ok true true)
      (by decide) (by decide) (by decide) (by decide) rfl rfl⟩

/-- Witness for the amended C8: a step-2 database error on concrete inputs in
both paths. -/
theorem step2_failure_policy_witness :
    (handleSubmit wState (wEnv .ok (.dbError "db down") true true)).1.error =
      some "Failed to save selected services" ∧
    Effect.sendAdminEmail ∉ (handleSubmit wState (wEnv .ok (.dbError "db down") true true)).2 ∧
    Effect.sendClientEmail ∉ (handleSubmit wState (wEnv .ok (.dbError "db down") true true)).2 ∧
    (handleSubmit wState (wEnv .ok (.dbError "db down") true true)).1.success =
      wState.success ∧
    (serverHandler wReq (wSEnv none (some "db down"))).1 =
      ⟨200, .ok (wSEnv none (some "db down")).requestNumber⟩ ∧
    ("Services insert error: " ++ "db down") ∈
      (serverHandler wReq (wSEnv none (some "db down"))).2.2 :=
  step2_failure_policy wState (wEnv .ok (.dbError "db down") true true) "db down"
    wReq (wSEnv none (some "db down")) "db down"
    (by decide) (by decide) (by decide) rfl rfl
    (by decide) (by decide) (by decide) rfl rfl

end QuoteIntake
